import Mathlib

/-!
Shallow embedding of `src/cinematch.py` (a Streamlit movie-discovery app):
the data model, the metadata-client response processing, the filter/sort
stage, the favorites list and the user-ratings store, together with proofs
of the behavioural properties stated in the design document.

Python dictionaries parsed from JSON are modelled as Lean structures whose
optional keys are `Option` fields; `dict.get(k, d)` becomes `Option.getD`;
network/HTTP outcomes of one outbound call are modelled as an
`Except String α` argument (the `.error` case is a raised
`requests.RequestException`, caught at the call site).  Each metadata-client
operation returns its result paired with a `Bool` recording whether a
user-visible warning (`st.error` / `st.warning`) was emitted on that path.
Python floats occurring in the code (TMDB `vote_average`, the minimum-rating
slider) are only ever compared, never computed with, so they are modelled
as rationals.
-/

namespace Cinematch

/-- A movie candidate as returned by TMDB search/discover/similar: the
`id` key is accessed with mandatory indexing in the code, the other keys
with `.get`, hence `Option` fields. -/
structure Movie where
  id : Nat
  title : Option String
  poster_path : Option String
  overview : Option String
  vote_average : Option ℚ
  release_date : Option String
deriving DecidableEq

/-- One entry of a country's `release_dates` list; the `certification`
key is read with `.get`. -/
structure ReleaseEntry where
  certification : Option String
deriving DecidableEq

/-- One country block of `movie_details['release_dates']['results']`. -/
structure CountryEntry where
  iso_3166_1 : String
  release_dates : List ReleaseEntry
deriving DecidableEq

/-- The `release_dates` append-on object of a movie-details response. -/
structure ReleaseDates where
  results : List CountryEntry
deriving DecidableEq

/-- A movie-details JSON object.  `release_dates` is `none` when the key
is absent; `hasOtherKeys` records whether the dict carries any key other
than `release_dates`, which is what Python truthiness of the dict
(`if movie_details:`) observes when `release_dates` is absent. -/
structure MovieDetails where
  release_dates : Option ReleaseDates
  hasOtherKeys : Bool
deriving DecidableEq

/-- Python truthiness of `movie_details` (an `Option`al dict): `None` and
the empty dict are falsy. -/
def detailsTruthy : Option MovieDetails → Bool
  | none => false
  | some md => md.release_dates.isSome || md.hasOtherKeys

/-- One entry of a `/movie/{id}/videos` response; `site` and `type` are
read with `.get`, `key` with mandatory indexing. -/
structure Video where
  site : Option String
  type : Option String
  key : String
deriving DecidableEq

/-- One provider entry inside the `US` block of a watch-providers
response. -/
structure ProviderEntry where
  provider_name : String
  logo_path : String
deriving DecidableEq

/-- The `US` country block of a watch-providers response: the three offer
buckets are optional keys. -/
structure ProvidersUS where
  flatrate : Option (List ProviderEntry)
  rent : Option (List ProviderEntry)
  buy : Option (List ProviderEntry)
deriving DecidableEq

/-- A watch-providers response, reduced to the `results.US` block the code
reads (`data.get('results', {}).get('US', {})`). -/
structure ProvidersJson where
  us : Option ProvidersUS
deriving DecidableEq

/-- A provider record as assembled by `get_streaming_providers`. -/
structure ProviderOut where
  name : String
  type : String
  logo : String
deriving DecidableEq

/-- A display card as assembled by `format_movie_card`. -/
structure MovieCard where
  title : String
  poster_url : String
  year : String
  rating : ℚ
  age_rating : String
  overview : String
  streaming_providers : List ProviderOut
  trailer_url : Option String
  id : Nat
deriving DecidableEq

/-! ## Filter/Sort stage (`main`, lines 588-595)

```python
filtered_recommendations = []
for movie in st.session_state.recommendations:
    if movie.get('vote_average', 0) >= min_rating:
        filtered_recommendations.append(movie)
filtered_recommendations = filtered_recommendations[:max_results]
```
-/

/-- `movie.get('vote_average', 0)`. -/
def ratingOf (m : Movie) : ℚ := m.vote_average.getD 0

/-- The append loop of the filter stage: keeps, in order, the candidates
whose rating meets or exceeds the floor. -/
def filterLoop (minRating : ℚ) : List Movie → List Movie
  | [] => []
  | m :: ms =>
      if minRating ≤ ratingOf m then m :: filterLoop minRating ms
      else filterLoop minRating ms

/-- The whole filter/sort stage: the filter loop followed by the
`[:max_results]` truncation. -/
def filterStage (minRating : ℚ) (maxResults : Nat) (recs : List Movie) : List Movie :=
  (filterLoop minRating recs).take maxResults

lemma filterLoop_eq_filter (R : ℚ) (l : List Movie) :
    filterLoop R l = l.filter (fun m => decide (R ≤ ratingOf m)) := by
  induction l with
  | nil => rfl
  | cons m ms ih =>
      by_cases h : R ≤ ratingOf m <;>
        simp [filterLoop, List.filter_cons, h, ih]

lemma mem_filterLoop {R : ℚ} {l : List Movie} {m : Movie}
    (h : m ∈ filterLoop R l) : m ∈ l ∧ R ≤ ratingOf m := by
  rw [filterLoop_eq_filter] at h
  have := List.mem_filter.mp h
  exact ⟨this.1, by simpa using this.2⟩

lemma filterLoop_sublist (R : ℚ) (l : List Movie) :
    (filterLoop R l).Sublist l := by
  rw [filterLoop_eq_filter]; exact List.filter_sublist l

/-! ## Age-rating extraction (`get_age_rating_from_details`, lines 149-160)

```python
if not movie_details or 'release_dates' not in movie_details:
    return 'Not Rated'
for country in movie_details['release_dates']['results']:
    if country['iso_3166_1'] == 'US':
        for release in country['release_dates']:
            certification = release.get('certification')
            if certification and certification.strip():
                return certification
return 'Not Rated'
```
-/

/-- Python `str.isspace`-style whitespace, restricted to the ASCII
whitespace characters `str.strip()` removes. -/
def isPySpace (c : Char) : Bool :=
  c = ' ' ∨ c = '\t' ∨ c = '\n' ∨ c = '\x0d' ∨ c = '\x0b' ∨ c = '\x0c'

/-- Python `s.strip()`: drop leading and trailing whitespace. -/
def pyStrip (s : String) : String :=
  ((s.toList.dropWhile isPySpace).reverse.dropWhile isPySpace).reverse.asString

/-- The inner release loop of `get_age_rating_from_details`: first
certification that is present, non-empty and non-blank after stripping. -/
def innerScanStrip : List ReleaseEntry → Option String
  | [] => none
  | r :: rs =>
      match r.certification with
      | some s => if s ≠ "" ∧ pyStrip s ≠ "" then some s else innerScanStrip rs
      | none => innerScanStrip rs

/-- The country loop of `get_age_rating_from_details`: scans every `US`
country block (there is no break, so a `US` block without a passing
certification does not stop the scan). -/
def certScanStrip : List CountryEntry → Option String
  | [] => none
  | c :: cs =>
      if c.iso_3166_1 = "US" then
        match innerScanStrip c.release_dates with
        | some s => some s
        | none => certScanStrip cs
      else certScanStrip cs

/-- `MovieRecommender.get_age_rating_from_details`. -/
def get_age_rating_from_details (d : Option MovieDetails) : String :=
  match d with
  | none => "Not Rated"
  | some md =>
      match md.release_dates with
      | none => "Not Rated"
      | some rd => (certScanStrip rd.results).getD "Not Rated"

/-! ## Trailer extraction (`get_movie_trailer`, lines 162-185)

The success path scans the video list for the first entry with
`site == 'YouTube'` and `type == 'Trailer'`; the `except` branch returns
`None` without any `st.error`/`st.warning` call. -/

/-- The video-scanning loop of `get_movie_trailer`. -/
def findTrailer : List Video → Option String
  | [] => none
  | v :: vs =>
      if v.site = some "YouTube" ∧ v.type = some "Trailer" then
        some ("https://www.youtube.com/embed/" ++ v.key)
      else findTrailer vs

/-- `MovieRecommender.get_movie_trailer`, given the outcome of its one
outbound call.  Second component: whether a warning was shown. -/
def get_movie_trailer (resp : Except String (List Video)) :
    Option String × Bool :=
  match resp with
  | .error _ => (none, false)
  | .ok videos => (findTrailer videos, false)

/-! ## Search (`search_movies`, lines 110-128): on failure `st.error` is
shown and `[]` returned. -/

/-- `MovieRecommender.search_movies`, given the outcome of its one
outbound call. -/
def search_movies (resp : Except String (List Movie)) :
    List Movie × Bool :=
  match resp with
  | .error _ => ([], true)
  | .ok results => (results, false)

/-- `MovieRecommender.get_movie_details`, given the outcome of its one
outbound call: on failure `st.error` is shown and `None` returned. -/
def get_movie_details (resp : Except String MovieDetails) :
    Option MovieDetails × Bool :=
  match resp with
  | .error _ => (none, true)
  | .ok d => (some d, false)

/-! ## Streaming providers (`get_streaming_providers`, lines 304-333):
builds the flatrate/rent/buy provider records; the `except` branch
returns `[]` silently. -/

/-- One offer bucket turned into provider records. -/
def providerBucket (bucketName : String) : Option (List ProviderEntry) → List ProviderOut
  | none => []
  | some ps => ps.map fun p =>
      ⟨p.provider_name, bucketName, "https://image.tmdb.org/t/p/w45" ++ p.logo_path⟩

/-- The provider-assembly loop over `['flatrate', 'rent', 'buy']`. -/
def buildProviders (j : ProvidersJson) : List ProviderOut :=
  match j.us with
  | none => []
  | some us =>
      providerBucket "flatrate" us.flatrate ++ providerBucket "rent" us.rent ++
        providerBucket "buy" us.buy

/-- `MovieRecommender.get_streaming_providers`, given the outcome of its
one outbound call. -/
def get_streaming_providers (resp : Except String ProvidersJson) :
    List ProviderOut × Bool :=
  match resp with
  | .error _ => ([], false)
  | .ok j => (buildProviders j, false)

/-! ## Discovery (`discover_movies`, lines 189-244)

After a successful response, when the age-rating filter set and the result
list are both non-empty, each result's details are fetched and the movie is
kept only when the details are truthy and its resolved US certification is
in the requested set or equals `'Not Rated'`.  On failure `st.error` is
shown and `[]` returned.  The per-movie details fetch is modelled by an
oracle from movie id to the fetched details (`None` = fetch failed). -/

/-- The client-side re-filtering loop of `discover_movies`. -/
def discoverFilterLoop (oracle : Nat → Option MovieDetails)
    (age_ratings : List String) : List Movie → List Movie
  | [] => []
  | m :: ms =>
      let rest := discoverFilterLoop oracle age_ratings ms
      if detailsTruthy (oracle m.id) then
        let r := get_age_rating_from_details (oracle m.id)
        if r ∈ age_ratings ∨ r = "Not Rated" then m :: rest else rest
      else rest

/-- `MovieRecommender.discover_movies`, given the outcome of its discovery
call and the details oracle for the client-side re-filter. -/
def discover_movies (oracle : Nat → Option MovieDetails)
    (age_ratings : List String) (resp : Except String (List Movie)) :
    List Movie × Bool :=
  match resp with
  | .error _ => ([], true)
  | .ok results =>
      (if !age_ratings.isEmpty && !results.isEmpty then
        discoverFilterLoop oracle age_ratings results
      else results, false)

/-! ## Card formatting (`format_movie_card`, lines 335-368)

The inline age-rating loop differs from `get_age_rating_from_details`:
it breaks out of the country loop after the FIRST `US` block whether or
not that block yielded a certification, and it does not strip the
certification string before testing it.

```python
age_rating = 'Not Rated'
if movie_details and 'release_dates' in movie_details:
    for country in movie_details['release_dates']['results']:
        if country['iso_3166_1'] == 'US':
            for release in country['release_dates']:
                if release.get('certification'):
                    age_rating = release['certification']
                    break
            break
```
-/

/-- Python truthiness of an optional certification string. -/
def certTruthy : Option String → Bool
  | none => false
  | some s => s ≠ ""

/-- The inner release loop of `format_movie_card`'s age-rating scan:
first truthy (present, non-empty) certification. -/
def innerCertScan : List ReleaseEntry → Option String
  | [] => none
  | r :: rs =>
      match r.certification with
      | some s => if s ≠ "" then some s else innerCertScan rs
      | none => innerCertScan rs

/-- The country loop of `format_movie_card`'s age-rating scan: the outer
`break` fires at the first `US` block, so later blocks are never seen. -/
def formatCertScan : List CountryEntry → String
  | [] => "Not Rated"
  | c :: cs =>
      if c.iso_3166_1 = "US" then
        match innerCertScan c.release_dates with
        | some s => s
        | none => "Not Rated"
      else formatCertScan cs

/-- The age-rating portion of `format_movie_card`. -/
def formatAgeRating (d : Option MovieDetails) : String :=
  match d with
  | none => "Not Rated"
  | some md =>
      match md.release_dates with
      | none => "Not Rated"
      | some rd => formatCertScan rd.results

/-- `movie.get('release_date', '')[:4] if movie.get('release_date') else 'N/A'`. -/
def yearOf (m : Movie) : String :=
  match m.release_date with
  | some s => if s ≠ "" then (s.toList.take 4).asString else "N/A"
  | none => "N/A"

/-- The poster-URL expression of `format_movie_card`. -/
def posterUrlOf (m : Movie) : String :=
  match m.poster_path with
  | some p =>
      if p ≠ "" then "https://image.tmdb.org/t/p/w500" ++ p
      else "https://via.placeholder.com/500x750?text=No+Poster"
  | none => "https://via.placeholder.com/500x750?text=No+Poster"

/-- `MovieRecommender.format_movie_card`, given the movie and the outcomes
of its three enrichment calls (details, providers, trailer). -/
def format_movie_card (movie : Movie) (movie_details : Option MovieDetails)
    (streaming_providers : List ProviderOut) (trailer_url : Option String) :
    MovieCard :=
  ⟨movie.title.getD "Unknown Title",
   posterUrlOf movie,
   yearOf movie,
   movie.vote_average.getD 0,
   formatAgeRating movie_details,
   movie.overview.getD "No description available.",
   streaming_providers,
   trailer_url,
   movie.id⟩

/-! ## Free-text suggestions (`get_gemini_recommendations`, lines 272-302)

```python
movie_titles = [t.strip() for t in response.text.split('\n') if t.strip()]
recommendations = []
for title in movie_titles[:5]:
    movies = self.search_movies(title)
    if movies:
        recommendations.extend(movies[:1])
```
-/

/-- One step of Python `s.split('\n')` over the character list, folded
from the right; the accumulator is never empty. -/
def splitNlStep (c : Char) (acc : List (List Char)) : List (List Char) :=
  match acc with
  | [] => [[c]]
  | cur :: rest => if c = '\n' then [] :: cur :: rest else (c :: cur) :: rest

/-- Python `s.split('\n')`. -/
def pySplitNl (s : String) : List String :=
  (s.toList.foldr splitNlStep [[]]).map List.asString

/-- The title parsing of the generative-text response: split on newlines,
strip, drop blank lines (note the comprehension keeps `title.strip()`). -/
def geminiTitles (text : String) : List String :=
  ((pySplitNl text).map pyStrip).filter (fun t => t ≠ "")

/-- The per-title search loop: one search per title, keeping the first
match of each non-empty search result. -/
def geminiSearchLoop (searchFn : String → List Movie) : List String → List Movie
  | [] => []
  | t :: ts =>
      match searchFn t with
      | [] => geminiSearchLoop searchFn ts
      | ms => ms.take 1 ++ geminiSearchLoop searchFn ts

/-- `MovieRecommender.get_gemini_recommendations`, given whether a
text-generation key is configured, the search operation, and the outcome
of the text-generation call. -/
def get_gemini_recommendations (hasKey : Bool)
    (searchFn : String → List Movie) (resp : Except String String) :
    List Movie × Bool :=
  if !hasKey then ([], true)
  else
    match resp with
    | .error _ => ([], true)
    | .ok text => (geminiSearchLoop searchFn ((geminiTitles text).take 5), false)

/-! ## Favorites (`main`, lines 648-655)

```python
is_favorite = any(fav['id'] == movie_card['id'] for fav in st.session_state.favorites)
if not is_favorite:
    st.session_state.favorites.append(movie_card)
```
-/

/-- The guarded add-to-favorites action. -/
def addFavorite (favorites : List MovieCard) (card : MovieCard) : List MovieCard :=
  if favorites.any (fun fav => fav.id == card.id) then favorites
  else favorites ++ [card]

/-! ## User-ratings store (`load_user_ratings` lines 38-46,
`display_star_rating` lines 370-389)

The persisted file is a JSON object mapping movie-id strings to integers,
modelled as an insertion-ordered association list (Python dicts preserve
insertion order and assignment overwrites in place).  `load_user_ratings`
returns the parsed content unvalidated, or `{}` when the file is missing
or unreadable. -/

/-- Python dict assignment `d[k] = v` on an insertion-ordered association
list: overwrite in place, else append. -/
def dictSet : List (String × Int) → String → Int → List (String × Int)
  | [], k, v => [(k, v)]
  | (k', v') :: rest, k, v =>
      if k' = k then (k, v) :: rest else (k', v') :: dictSet rest k v

/-- Python `d.get(k, default)`. -/
def dictGet : List (String × Int) → String → Int → Int
  | [], _, default => default
  | (k', v') :: rest, k, default =>
      if k' = k then v' else dictGet rest k default

/-- `load_user_ratings`: the parsed file content, unvalidated; missing or
unreadable file degrades to the empty map. -/
def load_user_ratings (fileContent : Option (List (String × Int))) :
    List (String × Int) :=
  match fileContent with
  | none => []
  | some m => m

/-- The write path of `display_star_rating`'s star buttons:
`st.session_state.user_ratings[str(movie_id)] = i`. -/
def rateMovie (ratings : List (String × Int)) (movie_id : Nat) (i : Int) :
    List (String × Int) :=
  dictSet ratings (toString movie_id) i

/-- The read path of `display_star_rating`:
`st.session_state.user_ratings.get(str(movie_id), 0)`. -/
def readRating (ratings : List (String × Int)) (movie_id : Nat) : Int :=
  dictGet ratings (toString movie_id) 0

/-- The range invariant asserted by the design document for the ratings
map: every stored value lies in `[1, 5]`. -/
def ratingsInRange (ratings : List (String × Int)) : Prop :=
  ∀ p ∈ ratings, 1 ≤ p.2 ∧ p.2 ≤ 5

/-! ## Spec-side age-rating definitions (for the refinement claim about
`format_movie_card`) -/

/-- Modelled from the spec's words (§4.3): "extracts the first non-empty
US certification found by scanning release-date entries in provider order
(first match wins; absent → 'Not Rated')" — every `US` country block is
scanned, in order. -/
def specAgeRatingAllUS (d : Option MovieDetails) : String :=
  match d with
  | none => "Not Rated"
  | some md =>
      match md.release_dates with
      | none => "Not Rated"
      | some rd =>
          match ((rd.results.filter (fun c => c.iso_3166_1 = "US")).flatMap
              (fun c => c.release_dates)).find? (fun r => certTruthy r.certification) with
          | none => "Not Rated"
          | some r => r.certification.getD "Not Rated"

/-- The amended description of `format_movie_card`'s age-rating field:
only the FIRST `US` country block is scanned (the outer loop breaks
there), and within it the first non-empty certification wins. -/
def specAgeRatingFirstUS (d : Option MovieDetails) : String :=
  match d with
  | none => "Not Rated"
  | some md =>
      match md.release_dates with
      | none => "Not Rated"
      | some rd =>
          match rd.results.find? (fun c => c.iso_3166_1 = "US") with
          | none => "Not Rated"
          | some c =>
              match c.release_dates.find? (fun r => certTruthy r.certification) with
              | none => "Not Rated"
              | some r => r.certification.getD "Not Rated"

/-! ## Concrete fixtures used by witnesses and counterexamples -/

/-- A candidate with no `vote_average` key. -/
def mNoVote : Movie := ⟨11, some "NoVote", none, none, none, none⟩

/-- A favorite card with identifier 1. -/
def cardA : MovieCard := ⟨"A", "p", "2000", 0, "PG", "o", [], none, 1⟩

/-- A favorite card with identifier 2. -/
def cardB : MovieCard := ⟨"B", "p", "2001", 0, "PG", "o", [], none, 2⟩

/-! ## Claim theorems -/

/-- Claim C2: for every candidate list, minimum-rating threshold `R` and
maximum count `M`, the filter/sort stage output contains no candidate
whose rating is below `R`, equals the kept candidates truncated to the
first `M`, and is an in-order subsequence of the input of length at most
`M`. -/
theorem c2_filter_stage_output (recs : List Movie) (R : ℚ) (M : Nat) :
    (∀ m ∈ filterStage R M recs, R ≤ ratingOf m)
    ∧ filterStage R M recs =
        (recs.filter (fun m => decide (R ≤ ratingOf m))).take M
    ∧ (filterStage R M recs).Sublist recs
    ∧ (filterStage R M recs).length ≤ M := by
  refine ⟨?_, ?_, ?_, ?_⟩
  · intro m hm
    exact (mem_filterLoop (List.take_subset _ _ hm)).2
  · rw [filterStage, filterLoop_eq_filter]
  · exact (List.take_sublist _ _).trans (filterLoop_sublist R recs)
  · simp [filterStage]

/-- Claim C10: a candidate lacking the `vote_average` key is treated as
rating 0 by the filter stage — excluded from the output whenever the
minimum-rating threshold is positive, and kept by the filter loop
(subject only to truncation) when the threshold is 0. -/
theorem c10_missing_vote_average (recs : List Movie) (R : ℚ) (M : Nat)
    (m : Movie) (hva : m.vote_average = none) (hmem : m ∈ recs) :
    (0 < R → m ∉ filterStage R M recs) ∧ (R = 0 → m ∈ filterLoop R recs) := by
  have hr : ratingOf m = 0 := by simp [ratingOf, hva]
  constructor
  · intro hR hm
    have h := (mem_filterLoop (List.take_subset _ _ hm)).2
    rw [hr] at h
    exact absurd (lt_of_lt_of_le hR h) (lt_irrefl 0)
  · intro hR0
    subst hR0
    rw [filterLoop_eq_filter]
    exact List.mem_filter.mpr ⟨hmem, by simp [hr]⟩

/-- Witness for C10 at a concrete candidate: with threshold 1 the
unrated candidate is dropped, with threshold 0 it is kept. -/
theorem c10_witness :
    mNoVote.vote_average = none
    ∧ mNoVote ∉ filterStage 1 10 [mNoVote]
    ∧ mNoVote ∈ filterLoop 0 [mNoVote] :=
  ⟨rfl,
   (c10_missing_vote_average [mNoVote] 1 10 mNoVote rfl (by simp)).1 (by norm_num),
   (c10_missing_vote_average [mNoVote] 0 10 mNoVote rfl (by simp)).2 rfl⟩

lemma dictGet_dictSet_same (m : List (String × Int)) (k : String) (v d : Int) :
    dictGet (dictSet m k v) k d = v := by
  induction m with
  | nil => simp [dictSet, dictGet]
  | cons p rest ih =>
      by_cases h : p.1 = k
      · simp [dictSet, dictGet, h]
      · simp [dictSet, dictGet, h, ih]

lemma dictGet_absent (m : List (String × Int)) (k : String) (d : Int)
    (h : ∀ p ∈ m, p.1 ≠ k) : dictGet m k d = d := by
  induction m with
  | nil => rfl
  | cons p rest ih =>
      have hp : p.1 ≠ k := h p (by simp)
      simp only [dictGet, hp, if_false]
      exact ih fun q hq => h q (by simp [hq])

/-- Claim C4: rating a movie with a value `v` in `1..5` and immediately
reading it back returns `v`; reading a movie that was never rated returns
the default 0. -/
theorem c4_rate_then_read :
    (∀ (ratings : List (String × Int)) (movie_id : Nat) (v : Int),
        1 ≤ v → v ≤ 5 →
        readRating (rateMovie ratings movie_id v) movie_id = v)
    ∧ (∀ (ratings : List (String × Int)) (movie_id : Nat),
        (∀ p ∈ ratings, p.1 ≠ toString movie_id) →
        readRating ratings movie_id = 0) := by
  constructor
  · intro ratings movie_id v _ _
    exact dictGet_dictSet_same ratings (toString movie_id) v 0
  · intro ratings movie_id h
    exact dictGet_absent ratings (toString movie_id) 0 h

/-- Witness for C4 at concrete inputs: rating movie 42 with 3 then
reading it yields 3; reading unrated movie 42 from a store holding only
movie 7 yields 0. -/
theorem c4_witness :
    (1 : Int) ≤ 3 ∧ (3 : Int) ≤ 5
    ∧ readRating (rateMovie [] 42 3) 42 = 3
    ∧ readRating [("7", 2)] 42 = 0 :=
  ⟨by norm_num, by norm_num,
   c4_rate_then_read.1 [] 42 3 (by norm_num) (by norm_num),
   c4_rate_then_read.2 [("7", 2)] 42 (by decide)⟩

/-- Counterexample for claim C5 as stated: hydration at session start
does not validate — a persisted file holding the value 9 yields a
ratings map whose entry is outside `[1, 5]`. -/
theorem c5_counterexample :
    ¬ ratingsInRange (load_user_ratings (some [("7", 9)])) := by
  intro h
  have h9 := h ("7", 9) (by simp [load_user_ratings])
  omega

/-- Claim C5, amended: hydration preserves the `[1, 5]` range only when
the persisted file's entries are already in range (hydration itself
validates nothing), and every in-session write (the star buttons write
only `1..5`) preserves the range. -/
theorem c5_ratings_range_amended :
    (∀ fileContent : Option (List (String × Int)),
        (∀ m, fileContent = some m → ratingsInRange m) →
        ratingsInRange (load_user_ratings fileContent))
    ∧ (∀ (ratings : List (String × Int)) (movie_id : Nat) (i : Int),
        1 ≤ i → i ≤ 5 → ratingsInRange ratings →
        ratingsInRange (rateMovie ratings movie_id i)) := by
  constructor
  · intro fileContent h
    match fileContent with
    | none => intro p hp; simp [load_user_ratings] at hp
    | some m => exact h m rfl
  · intro ratings movie_id i h1 h5 hr
    unfold rateMovie
    generalize toString movie_id = k
    induction ratings with
    | nil =>
        intro p hp
        simp [dictSet] at hp
        simp [hp, h1, h5]
    | cons q rest ih =>
        intro p hp
        by_cases hq : q.1 = k
        · simp only [dictSet, hq, if_true] at hp
          rcases List.mem_cons.mp hp with h | h
          · simp [h, h1, h5]
          · exact hr p (List.mem_cons_of_mem q h)
        · simp only [dictSet, hq, if_false] at hp
          rcases List.mem_cons.mp hp with h | h
          · exact hr p (h ▸ List.mem_cons_self q rest)
          · exact ih (fun r hr' => hr r (List.mem_cons_of_mem q hr')) p h

/-- Witness for the amended C5 at concrete inputs: an in-range file
hydrates to an in-range map, and writing 5 for movie 9 keeps the map in
range. -/
theorem c5_witness :
    ratingsInRange [("3", 2)]
    ∧ ratingsInRange (load_user_ratings (some [("3", 2)]))
    ∧ ratingsInRange (rateMovie [("3", 2)] 9 5) :=
  ⟨by intro p hp; simp at hp; simp [hp],
   c5_ratings_range_amended.1 (some [("3", 2)])
     (by intro m hm; cases hm; intro p hp; simp at hp; simp [hp]),
   c5_ratings_range_amended.2 [("3", 2)] 9 5 (by norm_num) (by norm_num)
     (by intro p hp; simp at hp; simp [hp])⟩

/-- Counterexample for claim C3 as stated: it quantifies over every
starting favorites list, but a starting list that already holds two
entries with identifier 1 still holds them after adding the id-2 card
twice — the guarded add never deduplicates pre-existing entries. -/
theorem c3_counterexample :
    ¬ (((addFavorite (addFavorite [cardA, cardA] cardB) cardB).map
        (fun fav => fav.id)).Nodup) := by
  decide

lemma addFavorite_nodup {favorites : List MovieCard} {card : MovieCard}
    (h : (favorites.map (fun fav => fav.id)).Nodup) :
    ((addFavorite favorites card).map (fun fav => fav.id)).Nodup := by
  unfold addFavorite
  by_cases hany : favorites.any (fun fav => fav.id == card.id)
  · simpa [hany] using h
  · have hanyf : favorites.any (fun fav => fav.id == card.id) = false :=
      Bool.eq_false_iff.mpr hany
    have hnot : ∀ fav ∈ favorites, fav.id ≠ card.id := by
      intro fav hmem
      have := List.any_eq_false.mp hanyf fav hmem
      simpa using this
    simp only [hanyf, Bool.false_eq_true, if_false, List.map_append,
      List.map_cons, List.map_nil]
    rw [List.nodup_append]
    refine ⟨h, List.nodup_singleton _, ?_⟩
    intro a ha hb
    simp only [List.mem_singleton] at hb
    obtain ⟨fav, hfav, rfl⟩ := List.mem_map.mp ha
    exact hnot fav hfav hb

/-- Claim C3, amended: provided the starting favorites list has pairwise
distinct identifiers, running the guarded add twice on the same card
leaves a list with pairwise distinct identifiers. -/
theorem c3_add_twice_unique (card : MovieCard) (favorites : List MovieCard)
    (h : (favorites.map (fun fav => fav.id)).Nodup) :
    ((addFavorite (addFavorite favorites card) card).map
      (fun fav => fav.id)).Nodup :=
  addFavorite_nodup (addFavorite_nodup h)

/-- Witness for the amended C3 at a concrete input: starting from a
duplicate-free list holding only the id-1 card, adding the id-2 card
twice keeps identifiers pairwise distinct. -/
theorem c3_witness :
    (([cardA].map (fun fav => fav.id)).Nodup)
    ∧ (((addFavorite (addFavorite [cardA] cardB) cardB).map
        (fun fav => fav.id)).Nodup) :=
  ⟨by decide, c3_add_twice_unique cardB [cardA] (by decide)⟩

lemma findTrailer_cons_skip {v : Video} (vs : List Video)
    (h : ¬ (v.site = some "YouTube" ∧ v.type = some "Trailer")) :
    findTrailer (v :: vs) = findTrailer vs := by
  simp [findTrailer, h]

lemma findTrailer_none {l : List Video}
    (h : ∀ v ∈ l, ¬ (v.site = some "YouTube" ∧ v.type = some "Trailer")) :
    findTrailer l = none := by
  induction l with
  | nil => rfl
  | cons v vs ih =>
      rw [findTrailer_cons_skip vs (h v (by simp))]
      exact ih fun w hw => h w (by simp [hw])

lemma findTrailer_append_none {pre : List Video} (l : List Video)
    (h : ∀ v ∈ pre, ¬ (v.site = some "YouTube" ∧ v.type = some "Trailer")) :
    findTrailer (pre ++ l) = findTrailer l := by
  induction pre with
  | nil => rfl
  | cons v vs ih =>
      rw [List.cons_append, findTrailer_cons_skip _ (h v (by simp))]
      exact ih fun w hw => h w (by simp [hw])

/-- Claim C7: in a video list whose earlier entries do not qualify, where
a non-trailer entry from the target platform is followed by a trailer
entry from the same platform, trailer extraction returns the URL built
from the trailer entry's key; and when no entry qualifies, no trailer is
returned. -/
theorem c7_trailer_first_match :
    (∀ (pre rest : List Video) (nt t : Video),
        (∀ v ∈ pre, ¬ (v.site = some "YouTube" ∧ v.type = some "Trailer")) →
        nt.site = some "YouTube" → nt.type ≠ some "Trailer" →
        t.site = some "YouTube" → t.type = some "Trailer" →
        (get_movie_trailer (.ok (pre ++ nt :: t :: rest))).1 =
          some ("https://www.youtube.com/embed/" ++ t.key))
    ∧ (∀ videos : List Video,
        (∀ v ∈ videos, ¬ (v.site = some "YouTube" ∧ v.type = some "Trailer")) →
        (get_movie_trailer (.ok videos)).1 = none) := by
  constructor
  · intro pre rest nt t hpre hnts hntt hts htt
    show findTrailer (pre ++ nt :: t :: rest) = _
    rw [findTrailer_append_none _ hpre,
      findTrailer_cons_skip _ (fun hc => hntt hc.2)]
    simp [findTrailer, hts, htt]
  · intro videos h
    exact findTrailer_none h

/-- A non-trailer video from the target platform. -/
def vTeaser : Video := ⟨some "YouTube", some "Teaser", "abc"⟩

/-- A trailer video from the target platform. -/
def vTrailer : Video := ⟨some "YouTube", some "Trailer", "xyz"⟩

/-- Witness for C7 at a concrete video list: a teaser followed by a
trailer yields the trailer's embed URL, and a teaser alone yields no
trailer. -/
theorem c7_witness :
    (get_movie_trailer (.ok [vTeaser, vTrailer])).1 =
      some ("https://www.youtube.com/embed/" ++ vTrailer.key)
    ∧ (get_movie_trailer (.ok [vTeaser])).1 = none :=
  ⟨c7_trailer_first_match.1 [] [] vTeaser vTrailer (by simp) rfl
      (by decide) rfl rfl,
   c7_trailer_first_match.2 [vTeaser] (by decide)⟩


lemma geminiSearchLoop_length (searchFn : String → List Movie) :
    ∀ ts : List String, (geminiSearchLoop searchFn ts).length ≤ ts.length := by
  intro ts
  induction ts with
  | nil => simp [geminiSearchLoop]
  | cons t ts ih =>
      cases hs : searchFn t with
      | nil => simp only [geminiSearchLoop, hs]; exact ih.trans (by simp)
      | cons m ms =>
          simp only [geminiSearchLoop, hs, List.length_append, List.length_cons]
          have : ((m :: ms).take 1).length ≤ 1 := by simp
          omega

lemma mem_geminiSearchLoop {searchFn : String → List Movie} :
    ∀ {ts : List String} {m : Movie}, m ∈ geminiSearchLoop searchFn ts →
      ∃ t ∈ ts, (searchFn t).head? = some m := by
  intro ts
  induction ts with
  | nil => intro m hm; simp [geminiSearchLoop] at hm
  | cons t ts ih =>
      intro m hm
      cases hs : searchFn t with
      | nil =>
          rw [geminiSearchLoop, hs] at hm
          obtain ⟨u, hu, hh⟩ := ih hm
          exact ⟨u, by simp [hu], hh⟩
      | cons x xs =>
          rw [geminiSearchLoop, hs] at hm
          simp only [List.take_succ_cons, List.take_zero, List.singleton_append,
            List.mem_cons] at hm
          rcases hm with rfl | hm
          · exact ⟨t, by simp, by simp [hs]⟩
          · obtain ⟨u, hu, hh⟩ := ih hm
            exact ⟨u, by simp [hu], hh⟩

/-- Claim C9: the free-text strategy issues at most 5 title searches (one
per parsed title, and at most 5 titles are taken), returns at most 5
candidates, and every returned candidate is the first search match of one
of the parsed titles. -/
theorem c9_gemini_limits (searchFn : String → List Movie) (text : String) :
    ((geminiTitles text).take 5).length ≤ 5
    ∧ ((get_gemini_recommendations true searchFn (.ok text)).1).length ≤ 5
    ∧ ∀ m ∈ (get_gemini_recommendations true searchFn (.ok text)).1,
        ∃ t ∈ (geminiTitles text).take 5, (searchFn t).head? = some m := by
  refine ⟨by simp, ?_, ?_⟩
  · show (geminiSearchLoop searchFn ((geminiTitles text).take 5)).length ≤ 5
    exact (geminiSearchLoop_length searchFn _).trans (by simp)
  · intro m hm
    exact mem_geminiSearchLoop hm

/-- The candidate returned for the title `"Blade"` by the witness search
oracle. -/
def movieBlade : Movie := ⟨7, some "Blade", none, none, none, none⟩

/-- A concrete search oracle: only the title `"Blade"` has a match. -/
def searchFnW : String → List Movie :=
  fun t => if t = "Blade" then [movieBlade] else []

/-- Witness for C9 at a concrete response text with two parsed titles:
the lone result is the first search match of the parsed title
`"Blade"`. -/
theorem c9_witness :
    movieBlade ∈ (get_gemini_recommendations true searchFnW
      (.ok " Blade \n\nRunner")).1
    ∧ ∃ t ∈ (geminiTitles " Blade \n\nRunner").take 5,
        (searchFnW t).head? = some movieBlade :=
  ⟨by decide,
   (c9_gemini_limits searchFnW " Blade \n\nRunner").2.2 movieBlade (by decide)⟩

/-- Counterexample for claim C6 as stated: a failed trailer call returns
the empty result but emits NO user-visible warning (its `except` branch
is a bare `return None`), and a failed streaming-providers call is
likewise silent. -/
theorem c6_counterexample :
    (get_movie_trailer (Except.error "timeout")).1 = none
    ∧ ¬ ((get_movie_trailer (Except.error "timeout")).2 = true)
    ∧ ¬ ((get_streaming_providers (Except.error "timeout")).2 = true) :=
  ⟨rfl, by decide, by decide⟩

/-- Claim C6, amended: on any network/HTTP failure every metadata-client
operation returns its empty result and never raises; search, discovery
and detail additionally surface a user-visible warning, while trailer and
streaming-provider failures are silent. -/
theorem c6_error_handling (e : String)
    (oracle : Nat → Option MovieDetails) (age_ratings : List String) :
    search_movies (.error e) = ([], true)
    ∧ discover_movies oracle age_ratings (.error e) = ([], true)
    ∧ get_movie_details (.error e) = (none, true)
    ∧ get_movie_trailer (.error e) = (none, false)
    ∧ get_streaming_providers (.error e) = ([], false) :=
  ⟨rfl, rfl, rfl, rfl, rfl⟩

lemma mem_discoverFilterLoop {oracle : Nat → Option MovieDetails}
    {age_ratings : List String} :
    ∀ {l : List Movie} {m : Movie}, m ∈ discoverFilterLoop oracle age_ratings l →
      get_age_rating_from_details (oracle m.id) ∈ age_ratings
      ∨ get_age_rating_from_details (oracle m.id) = "Not Rated" := by
  intro l
  induction l with
  | nil => intro m hm; simp [discoverFilterLoop] at hm
  | cons x xs ih =>
      intro m hm
      rw [discoverFilterLoop] at hm
      by_cases ht : detailsTruthy (oracle x.id)
      · simp only [ht, if_true] at hm
        by_cases hc : get_age_rating_from_details (oracle x.id) ∈ age_ratings
            ∨ get_age_rating_from_details (oracle x.id) = "Not Rated"
        · simp only [hc, if_true, List.mem_cons] at hm
          rcases hm with rfl | hm
          · exact hc
          · exact ih hm
        · simp only [hc, if_false] at hm
          exact ih hm
      · simp only [ht, if_false] at hm
        exact ih hm

/-- Claim C1: when the certification filter set is non-empty and the
discovery response carries results, every movie surviving the client-side
re-filter has a resolved US certification that is in the requested set or
is exactly `'Not Rated'`. -/
theorem c1_discover_certification (oracle : Nat → Option MovieDetails)
    (age_ratings : List String) (results : List Movie) (m : Movie)
    (hars : age_ratings ≠ []) (hres : results ≠ [])
    (hm : m ∈ (discover_movies oracle age_ratings (.ok results)).1) :
    get_age_rating_from_details (oracle m.id) ∈ age_ratings
    ∨ get_age_rating_from_details (oracle m.id) = "Not Rated" := by
  rw [discover_movies] at hm
  have h1 : age_ratings.isEmpty = false := by
    cases age_ratings with
    | nil => exact absurd rfl hars
    | cons a as => rfl
  have h2 : results.isEmpty = false := by
    cases results with
    | nil => exact absurd rfl hres
    | cons r rs => rfl
  rw [h1, h2] at hm
  simp only [Bool.not_false, Bool.and_self, if_true] at hm
  exact mem_discoverFilterLoop hm

/-- The details oracle of the C1 witness: every movie's details are a
truthy dict without a `release_dates` key, so every resolved
certification is `'Not Rated'`. -/
def oracleW : Nat → Option MovieDetails := fun _ => some ⟨none, true⟩

/-- A concrete discovery result. -/
def movieD : Movie := ⟨5, some "D", none, none, none, none⟩

/-- Witness for C1 at a concrete input: with filter set `["PG"]` and one
discovery result whose details resolve to `'Not Rated'`, the movie passes
the re-filter and its resolved certification is `'Not Rated'`. -/
theorem c1_witness :
    (["PG"] : List String) ≠ []
    ∧ ([movieD] : List Movie) ≠ []
    ∧ movieD ∈ (discover_movies oracleW ["PG"] (.ok [movieD])).1
    ∧ (get_age_rating_from_details (oracleW movieD.id) ∈ ["PG"]
        ∨ get_age_rating_from_details (oracleW movieD.id) = "Not Rated") :=
  ⟨by decide, by decide, by decide,
   c1_discover_certification oracleW ["PG"] [movieD] movieD (by decide)
     (by decide) (by decide)⟩

/-- A details object with two `US` country blocks: the first has an
absent certification, the second certifies `"PG"`. -/
def detailTwoUS : Option MovieDetails :=
  some ⟨some ⟨[⟨"US", [⟨none⟩]⟩, ⟨"US", [⟨some "PG"⟩]⟩]⟩, true⟩

/-- A plain candidate for the C8 counterexample. -/
def movieC8 : Movie := ⟨3, some "X", none, none, none, none⟩

/-- Counterexample for claim C8 as stated: with two `US` release-date
blocks where only the second carries a certification, the formatter's
inline loop breaks after the first `US` block and yields `'Not Rated'`,
while the first non-empty US certification found by scanning all entries
in provider order is `"PG"`. -/
theorem c8_counterexample :
    (format_movie_card movieC8 detailTwoUS [] none).age_rating
      ≠ specAgeRatingAllUS detailTwoUS := by
  decide

lemma innerCertScan_eq_find (l : List ReleaseEntry) :
    innerCertScan l =
      (l.find? (fun r => certTruthy r.certification)).map
        (fun r => r.certification.getD "Not Rated") := by
  induction l with
  | nil => rfl
  | cons r rs ih =>
      cases hc : r.certification with
      | none => simp [innerCertScan, List.find?_cons, certTruthy, hc, ih]
      | some s =>
          by_cases hs : s = ""
          · simp [innerCertScan, List.find?_cons, certTruthy, hc, hs, ih]
          · simp [innerCertScan, List.find?_cons, certTruthy, hc, hs]

lemma formatCertScan_eq_find (l : List CountryEntry) :
    formatCertScan l =
      match l.find? (fun c => c.iso_3166_1 = "US") with
      | none => "Not Rated"
      | some c =>
          match c.release_dates.find? (fun r => certTruthy r.certification) with
          | none => "Not Rated"
          | some r => r.certification.getD "Not Rated" := by
  induction l with
  | nil => rfl
  | cons c cs ih =>
      by_cases hc : c.iso_3166_1 = "US"
      · simp only [formatCertScan, hc, if_true, List.find?_cons,
          decide_eq_true_eq, hc, decide_True]
        rw [innerCertScan_eq_find]
        cases c.release_dates.find? (fun r => certTruthy r.certification) <;> rfl
      · have hfc : decide (c.iso_3166_1 = "US") = false := by
          simpa using hc
        simp only [formatCertScan, hc, if_false]
        rw [List.find?_cons, hfc]
        exact ih

/-- Claim C8, amended: the formatter's age-rating field equals the first
non-empty certification among the release entries of the FIRST `US`
country block (first match wins), and equals `'Not Rated'` when there is
no `US` block or the first `US` block carries no non-empty
certification — later `US` blocks are never consulted. -/
theorem c8_format_age_rating (movie : Movie) (d : Option MovieDetails)
    (providers : List ProviderOut) (trailer : Option String) :
    (format_movie_card movie d providers trailer).age_rating
      = specAgeRatingFirstUS d := by
  show formatAgeRating d = specAgeRatingFirstUS d
  cases d with
  | none => rfl
  | some md =>
      obtain ⟨rds, hok⟩ := md
      cases rds with
      | none => rfl
      | some rd => exact formatCertScan_eq_find rd.results
